import Mathlib

/-!
# Verification of the WikidataHistoryExtractor pipeline

A shallow embedding, in Lean, of the core functions of
`wikidata_history_extractor.py`: the duplicate-removal/compaction pass
(`remove_duplicates`, `sort_filtered_triple_operations`), the snapshot differ
(`extract_item_triple_operations`, `get_triple_operations_list`), the claim
normalizer (`get_truthy_claims_list`), the revision writer
(`save_item_revision_to_json_file`), the line-oriented dump parser
(`parse_xml_dump`, `process_dump_file`) and the aggregation step
(`collect_subfolder_triple_operations_to_file`).

Conventions used throughout the embedding:
* Python lists become Lean `List`s; Python `dict`s used only through
  item lookup and item assignment become association lists with
  prepend-on-update (`lookupA` / `insertA`);
* Python `set`s are modelled as duplicate-free lists together with their
  (unspecified) iteration order: `pySetAdd` keeps the first occurrence, and
  the set difference `pySetDiff` enumerates the left operand's order;
* file contents become explicit values threaded through the functions, with
  one field per marker file; `print` diagnostics that matter to the claims are
  returned as extra components;
* string primitives (`startswith`, slicing, `<` on strings, `int(...)`) are
  re-implemented structurally over `List Char` so that all definitions
  evaluate inside the kernel.
-/

set_option autoImplicit false

namespace WikidataHistory

/-- Python `d.get(k)` / `k in d` on a dict modelled as an association list:
the most recent binding wins. -/
def lookupA {α β : Type} [DecidableEq α] : List (α × β) → α → Option β
  | [], _ => none
  | (k, v) :: rest, a => if a = k then some v else lookupA rest a

/-- Python `d[k] = v` on a dict modelled as an association list: prepend, so
that `lookupA` sees the newest binding. -/
def insertA {α β : Type} [DecidableEq α] (d : List (α × β)) (a : α) (b : β) : List (α × β) :=
  (a, b) :: d

/-- Python `s.add(x)` on a set modelled as a duplicate-free list. -/
def pySetAdd {α : Type} [DecidableEq α] (s : List α) (a : α) : List α :=
  if a ∈ s then s else s ++ [a]

/-- Python set difference `a - b`, enumerated in the order of `a`. -/
def pySetDiff {α : Type} [DecidableEq α] (a b : List α) : List α :=
  a.filter (fun x => ¬ x ∈ b)

/-- Lexicographic strict comparison of code-point sequences: Python `<` on
strings. (Lean's own `String.lt` does not reduce in the kernel, hence this
structural re-implementation.) -/
def lexLtChars : List Char → List Char → Bool
  | [], [] => false
  | [], _ :: _ => true
  | _ :: _, [] => false
  | a :: as, b :: bs =>
    if a.toNat < b.toNat then true
    else if b.toNat < a.toNat then false
    else lexLtChars as bs

/-- Python `<` on strings. -/
def pyStrLt (a b : String) : Bool := lexLtChars a.toList b.toList

/-- Python `<` on tuples of strings (lexicographic, first difference wins). -/
def strTupleLt : List String → List String → Bool
  | [], _ => false
  | _ :: _, [] => false
  | a :: as, b :: bs =>
    if pyStrLt a b then true
    else if pyStrLt b a then false
    else strTupleLt as bs

/-- Non-strict tuple comparison used as the `sorted` predicate. -/
def strTupleLe (a b : List String) : Bool := ! strTupleLt b a

/-- Stable insertion into an already sorted list: an incoming element goes in
front of the first element it compares `le` to, hence before later elements
with an equal key and after earlier ones. -/
def insertSorted {α : Type} (le : α → α → Bool) (a : α) : List α → List α
  | [] => [a]
  | b :: rest => if le a b then a :: b :: rest else b :: insertSorted le a rest

/-- Python `sorted(l, key=...)`: the unique stable ascending reordering.
`sorted` is specified by stability plus ordering, which stable insertion sort
realizes; we use it because it evaluates inside the kernel. -/
def pySorted {α : Type} (le : α → α → Bool) (l : List α) : List α :=
  l.foldr (insertSorted le) []

/-- A parsed triple-operation line of the compiled event log: the five
whitespace-separated fields produced by `line.split()`, named after the
locals of `remove_duplicates` (source lines 750-754):
`curr_subjc, curr_objc, curr_pred, curr_op_type, curr_ts`.
(The fields hold whatever stands at those positions in the file; see the
aggregation step for what the positions actually contain.) -/
structure TOp where
  subjc : String
  objc : String
  pred : String
  opty : String
  ts : String
deriving DecidableEq, Repr

/-- The triple identity used by `remove_duplicates` (source line 751):
`(curr_subjc, curr_objc, curr_pred)`, i.e. the first three line fields. -/
def tripleOf (op : TOp) : String × String × String := (op.subjc, op.objc, op.pred)

/-- The condition of source line 757: same triple identity, same timestamp,
opposite operation characters. -/
def cancelsPair (a b : TOp) : Prop :=
  tripleOf a = tripleOf b ∧ a.ts = b.ts ∧ a.opty ≠ b.opty

instance (a b : TOp) : Decidable (cancelsPair a b) := by
  unfold cancelsPair; infer_instance

/-- Embedding of the loop of `remove_duplicates` (source lines 749-774).
The Python `while index + 1 < len(triple_operations)` loop over the immutable
input list is expressed as structural recursion on the suffix that starts at
`index`; `state` is `triple_state_dict`. The first component of the result is
`consistent_triple_operations`; the second collects the triples for which the
source prints the "Invalid triple operations pattern" warning (line 764),
in print order. -/
def removeDupGo (state : List ((String × String × String) × String)) :
    List TOp → List TOp × List (String × String × String)
  | curr :: next :: rest =>
    if cancelsPair curr next then
      -- lines 757-759: adjacent opposite pair at one timestamp, skip both
      removeDupGo state rest
    else if lookupA state (tripleOf curr) = none then
      -- lines 762-764 fall through to lines 772-774: warn if a first
      -- operation is a deletion, then record and emit it
      let r := removeDupGo (insertA state (tripleOf curr) curr.opty) (next :: rest)
      (curr :: r.1, (if curr.opty = "-" then [tripleOf curr] else []) ++ r.2)
    else if lookupA state (tripleOf curr) = some curr.opty then
      -- lines 768-770: repeated operation of the recorded type, drop it
      removeDupGo state (next :: rest)
    else
      -- lines 772-774: record and emit
      let r := removeDupGo (insertA state (tripleOf curr) curr.opty) (next :: rest)
      (curr :: r.1, r.2)
  | _ => ([], [])

/-- `remove_duplicates` (source lines 744-776): the loop starts with
`index = 0` and an empty `triple_state_dict`. -/
def remove_duplicates (triple_operations : List TOp) :
    List TOp × List (String × String × String) :=
  removeDupGo [] triple_operations

/-- The sort key of `sort_filtered_triple_operations` (source line 791):
`operator.itemgetter(4, 0, 1, 2, 3)` on the five line fields. -/
def opKeyTuple (op : TOp) : List String := [op.ts, op.subjc, op.objc, op.pred, op.opty]

/-- The comparison realizing `sorted(..., key=operator.itemgetter(4, 0, 1, 2, 3))`. -/
def opKeyLe (a b : TOp) : Bool := strTupleLe (opKeyTuple a) (opKeyTuple b)

/-- The in-memory transformation performed by `sort_filtered_triple_operations`
(source lines 779-813) on the loaded event list: the global sort of line 791
followed by `remove_duplicates` of line 794. Only the emitted event list (not
the warning channel) is written to the output file. -/
def compactor_pass (triple_operations : List TOp) : List TOp :=
  (remove_duplicates (pySorted opKeyLe triple_operations)).1

/-! ### Helper lemmas about the compaction pass -/

theorem dropLast_cons_cons (x y : TOp) (l : List TOp) :
    (x :: y :: l).dropLast = x :: (y :: l).dropLast := rfl

theorem dropLast_sublist_cons (x : TOp) (l : List TOp) :
    List.Sublist l.dropLast (x :: l).dropLast := by
  cases l with
  | nil => exact List.nil_sublist _
  | cons a as => exact (dropLast_cons_cons x a as) ▸ List.sublist_cons_self _ _

/-- Everything `removeDupGo` emits comes from the input with its final element
removed, in order. -/
theorem removeDupGo_fst_sublist (state : List ((String × String × String) × String))
    (l : List TOp) : List.Sublist (removeDupGo state l).1 l.dropLast := by
  induction state, l using removeDupGo.induct with
  | case1 state curr next rest hc ih =>
    rw [removeDupGo, if_pos hc]
    exact ih.trans ((dropLast_sublist_cons next rest).trans (dropLast_sublist_cons curr _))
  | case2 state curr next rest hc hn ih =>
    rw [removeDupGo, if_neg hc, if_pos hn]
    exact (dropLast_cons_cons curr next rest) ▸ ih.cons₂ curr
  | case3 state curr next rest hc hn hs ih =>
    rw [removeDupGo, if_neg hc, if_neg hn, if_pos hs]
    exact ih.trans ((dropLast_cons_cons curr next rest) ▸ List.sublist_cons_self curr _)
  | case4 state curr next rest hc hn hs ih =>
    rw [removeDupGo, if_neg hc, if_neg hn, if_neg hs]
    exact (dropLast_cons_cons curr next rest) ▸ ih.cons₂ curr
  | case5 l state h =>
    cases l with
    | nil => simp [removeDupGo]
    | cons a as =>
      cases as with
      | nil => simp [removeDupGo]
      | cons b bs => exact absurd rfl (h a b bs)

theorem pySorted_length {α : Type} (le : α → α → Bool) (l : List α) :
    (pySorted le l).length = l.length := by
  have hins : ∀ (a : α) (m : List α), (insertSorted le a m).length = m.length + 1 := by
    intro a m
    induction m with
    | nil => rfl
    | cons b rest ih =>
      by_cases hab : le a b = true
      · simp [insertSorted, hab]
      · simp [insertSorted, hab, ih]
  induction l with
  | nil => rfl
  | cons a rest ih => simp [pySorted, List.foldr] at ih ⊢; rw [hins, ih]

theorem compactor_pass_shrinks (l : List TOp) (h : l ≠ []) :
    (compactor_pass l).length < l.length := by
  have h1 : (compactor_pass l).length ≤ (pySorted opKeyLe l).dropLast.length :=
    (removeDupGo_fst_sublist [] (pySorted opKeyLe l)).length_le
  have h2 : (pySorted opKeyLe l).dropLast.length = l.length - 1 := by
    rw [List.length_dropLast, pySorted_length]
  have h3 : 0 < l.length := List.length_pos.mpr h
  omega


/-! ### Claims C10, C7, C6: the duplicate-removal pass -/

/-- Claim C10: the output of `remove_duplicates` draws only from the first
`len - 1` positions of the input (it is a sublist of the input with its last
element removed); in particular a unique last operation never appears in the
output, and a one-element input yields an empty output. -/
theorem claim_C10_last_operation_never_emitted :
    (∀ ops : List TOp, List.Sublist (remove_duplicates ops).1 ops.dropLast) ∧
    (∀ (ops : List TOp) (x : TOp), ops.getLast? = some x → x ∉ ops.dropLast →
      x ∉ (remove_duplicates ops).1) ∧
    (∀ a : TOp, remove_duplicates [a] = ([], [])) := by
  refine ⟨fun ops => removeDupGo_fst_sublist [] ops, ?_, fun a => rfl⟩
  intro ops x _ hx hmem
  exact hx (List.Sublist.mem hmem (removeDupGo_fst_sublist [] ops))

def c10a : TOp := { subjc := "1", objc := "2", pred := "3", opty := "+", ts := "5" }

def c10b : TOp := { subjc := "6", objc := "7", pred := "8", opty := "+", ts := "9" }

/-- Witness for C10 at a concrete two-element log whose final operation is
unique and consistent, and at a one-element log. -/
theorem claim_C10_witness :
    List.Sublist (remove_duplicates [c10a, c10b]).1 ([c10a, c10b] : List TOp).dropLast ∧
    c10b ∉ (remove_duplicates [c10a, c10b]).1 ∧
    remove_duplicates [c10b] = ([], []) := by
  exact ⟨claim_C10_last_operation_never_emitted.1 [c10a, c10b],
         claim_C10_last_operation_never_emitted.2.1 [c10a, c10b] c10b (by decide) (by decide),
         claim_C10_last_operation_never_emitted.2.2 c10b⟩

def c7log : List TOp :=
  [ { subjc := "1", objc := "1", pred := "1", opty := "+", ts := "1" },
    { subjc := "2", objc := "2", pred := "2", opty := "+", ts := "2" },
    { subjc := "3", objc := "3", pred := "3", opty := "+", ts := "3" } ]

/-- Claim C7 counterexample: `compactor_pass c7log` is an already-compacted
log, yet running the Compactor once more changes it (the pass drops the final
operation again), so a second run is not a no-op. -/
theorem claim_C7_counterexample :
    compactor_pass (compactor_pass c7log) ≠ compactor_pass c7log := by decide

/-- Claim C7 (amended): re-running the Compactor on an already-compacted log
is a no-op only when that log is empty; on a nonempty compacted log the second
run strictly shortens it (the final operation is never examined), so
compaction is not idempotent. -/
theorem claim_C7_compactor_not_idempotent :
    (∀ l : List TOp, compactor_pass l = [] →
      compactor_pass (compactor_pass l) = compactor_pass l) ∧
    (∀ l : List TOp, compactor_pass l ≠ [] →
      (compactor_pass (compactor_pass l)).length < (compactor_pass l).length) := by
  constructor
  · intro l h; rw [h]; rfl
  · intro l h; exact compactor_pass_shrinks _ h

def c7w : List TOp :=
  [ { subjc := "1", objc := "1", pred := "1", opty := "+", ts := "1" },
    { subjc := "2", objc := "2", pred := "2", opty := "+", ts := "2" } ]

/-- Witness for the amended C7 at the empty log and at a concrete log with a
nonempty compaction. -/
theorem claim_C7_witness :
    compactor_pass (compactor_pass []) = compactor_pass [] ∧
    (compactor_pass (compactor_pass c7w)).length < (compactor_pass c7w).length := by
  exact ⟨claim_C7_compactor_not_idempotent.1 [] (by decide),
         claim_C7_compactor_not_idempotent.2 c7w (by decide)⟩

/-- Claim C6 counterexample: a one-element log whose single operation is a
leading delete. The claim says a leading delete "produces a logged warning but
the event is still emitted"; here the final input position is never examined,
so the pass neither warns nor emits. -/
theorem claim_C6_counterexample :
    remove_duplicates
      [ { subjc := "1", objc := "2", pred := "3", opty := "-", ts := "4" } ] = ([], []) := rfl

/-- Claim C6 (amended): the three compaction rules hold for the operations the
scan actually examines, i.e. at positions before the last one; in each rule
the surrounding operations are constrained exactly as the scan requires.
(1) an adjacent pair with the same triple identity, the same timestamp and
opposite operations is removed entirely; (2) a leading delete that the scan
examines and that is not consumed by rule (1) is warned about and still
emitted; (3) a repeated operation of the same type with no intervening
opposite operation is dropped, keeping the first occurrence. -/
theorem claim_C6_compaction_rules :
    (∀ (a b : TOp) (rest : List TOp), cancelsPair a b →
      remove_duplicates (a :: b :: rest) = remove_duplicates rest) ∧
    (∀ (a b : TOp) (rest : List TOp), a.opty = "-" → ¬ cancelsPair a b →
      ∃ t w, remove_duplicates (a :: b :: rest) = (a :: t, tripleOf a :: w)) ∧
    (∀ (a a2 c : TOp) (rest : List TOp), tripleOf a2 = tripleOf a → a2.opty = a.opty →
      ¬ cancelsPair a2 c → ¬ cancelsPair a c →
      remove_duplicates (a :: a2 :: c :: rest) = remove_duplicates (a :: c :: rest)) := by
  refine ⟨?_, ?_, ?_⟩
  · intro a b rest h
    unfold remove_duplicates
    rw [removeDupGo, if_pos h]
  · intro a b rest h hnc
    unfold remove_duplicates
    rw [removeDupGo, if_neg hnc]
    have hl : lookupA ([] : List ((String × String × String) × String)) (tripleOf a) = none := rfl
    rw [if_pos hl, if_pos h]
    exact ⟨_, _, rfl⟩
  · intro a a2 c rest h1 h2 hnc1 hnc2
    have hca : ¬ cancelsPair a a2 := by
      rintro ⟨ht, hts, hop⟩
      exact hop h2.symm
    have hl : lookupA ([] : List ((String × String × String) × String)) (tripleOf a) = none := rfl
    have hl2 : lookupA (insertA ([] : List ((String × String × String) × String)) (tripleOf a) a.opty)
        (tripleOf a2) = some a2.opty := by
      simp [insertA, lookupA, h1, h2]
    have hl2n : ¬ lookupA (insertA ([] : List ((String × String × String) × String)) (tripleOf a) a.opty)
        (tripleOf a2) = none := by
      simp [hl2]
    unfold remove_duplicates
    conv_lhs => rw [removeDupGo, if_neg hca, if_pos hl, removeDupGo, if_neg hnc1, if_neg hl2n, if_pos hl2]
    conv_rhs => rw [removeDupGo, if_neg hnc2, if_pos hl]

/-! ### Integer and string primitives of the extraction step -/

/-- Decimal digits of a nonnegative number (auxiliary for `pyStr`). -/
def natToDigits : Nat → Nat → List Char → List Char
  | 0, _, acc => acc
  | fuel + 1, n, acc =>
    if n < 10 then Char.ofNat (48 + n) :: acc
    else natToDigits fuel (n / 10) (Char.ofNat (48 + n % 10) :: acc)

/-- Python `str(...)` on the integers of this pipeline. -/
def pyStr (i : Int) : String :=
  match i with
  | Int.ofNat n => ⟨natToDigits (n + 1) n []⟩
  | Int.negSucc n => ⟨'-' :: natToDigits (n + 2) (n + 1) []⟩

/-- Auxiliary for `pyInt`: reads decimal digits, failing on anything else. -/
def digitsToNat : List Char → Nat → Option Nat
  | [], acc => some acc
  | c :: rest, acc =>
    if 48 ≤ c.toNat ∧ c.toNat ≤ 57 then digitsToNat rest (acc * 10 + (c.toNat - 48))
    else none

/-- Python `int(...)` on the decimal strings of this pipeline (entity and
property ids, so no sign handling); where Python would raise `ValueError`
(empty or non-digit input) the model returns 0, which no modelled data
exercises. -/
def pyInt (s : String) : Int :=
  match s.toList with
  | [] => 0
  | l => ((digitsToNat l 0).getD 0 : Nat)

/-- Python `int(item_id[1:])` on a prefixed id such as `Q42` or `P31`. -/
def pyIntOfQid (s : String) : Int := pyInt ⟨s.toList.drop 1⟩

/-! ### The snapshot differ: claims C2 and C8 -/

/-- One triple-operation record produced by `extract_item_triple_operations`
(source line 207): the list
`[subject_, predicate_, object_, operation_type, rev_ts]`. -/
structure OpI where
  subject_ : Int
  predicate_ : Int
  object_ : Int
  operation_type : String
  rev_ts : String
deriving DecidableEq, Repr

/-- The `for operation in triple_operations` loop of
`extract_item_triple_operations` (source lines 202-207), over the set
difference in its iteration order. The loop rebinds its own `operation_type`
parameter at source line 206: on the first iteration the parameter still
holds "ins"/"del", on every later iteration it holds the "+"/"-" written by
the previous iteration. -/
def extractLoop : List (Int × Int × Int) → String → String → List OpI
  | [], _, _ => []
  | operation :: rest, rev_ts, operation_type =>
    let subject_ := operation.1
    let predicate_ := operation.2.1
    let object_ := operation.2.2
    let new_operation_type := if operation_type = "ins" then "+" else "-"
    { subject_ := subject_, predicate_ := predicate_, object_ := object_,
      operation_type := new_operation_type, rev_ts := rev_ts } ::
      extractLoop rest rev_ts new_operation_type

/-- `extract_item_triple_operations` (source lines 196-209); the claim sets
are duplicate-free lists carrying the set iteration order. -/
def extract_item_triple_operations (new_claims_set old_claims_set : List (Int × Int × Int))
    (rev_ts operation_type : String) : List OpI :=
  extractLoop
    (if operation_type = "ins" then pySetDiff new_claims_set old_claims_set
     else pySetDiff old_claims_set new_claims_set) rev_ts operation_type

/-- One revision line of a per-entity `.json.bz2` revision file, as built by
`create_item_revision_dict` (source lines 155-165) and read back by
`get_triple_operations_list` (source lines 221-224). -/
structure RevisionEntry where
  item_id : String
  revision : String
  timestamp : String
  claims : List (Int × Int × Int)
deriving DecidableEq, Repr

/-- The claims loop of `get_triple_operations_list` (source lines 227-233):
each claim whose subject equals the numeric item id enters `new_claims_set`;
the first mismatch prints a diagnostic and makes the whole function return
`None` (a bare `return`). -/
def buildClaimSet (numeric_item_id : Int) :
    List (Int × Int × Int) → List (Int × Int × Int) → Option (List (Int × Int × Int))
  | [], new_claims_set => some new_claims_set
  | claim :: rest, new_claims_set =>
    if claim.1 = numeric_item_id then
      buildClaimSet numeric_item_id rest (pySetAdd new_claims_set claim)
    else none

/-- The revision loop of `get_triple_operations_list` (source lines 220-245):
`old_claims_set` is carried across revisions and `new_claims_set` restarts
empty at each revision; a `None` from the claims loop aborts everything,
discarding operations already derived from earlier revisions. -/
def getTripleOpsGo (old_claims_set : List (Int × Int × Int)) :
    List RevisionEntry → Option (List OpI)
  | [] => some []
  | revision_dict :: rest =>
    match buildClaimSet (pyIntOfQid revision_dict.item_id) revision_dict.claims [] with
    | none => none
    | some new_claims_set =>
      let insert_operations :=
        extract_item_triple_operations new_claims_set old_claims_set revision_dict.timestamp "ins"
      let delete_operations :=
        extract_item_triple_operations new_claims_set old_claims_set revision_dict.timestamp "del"
      match getTripleOpsGo new_claims_set rest with
      | none => none
      | some tail => some (insert_operations ++ delete_operations ++ tail)

/-- `get_triple_operations_list` (source lines 212-247) on the decoded
revision lines of one entity's revision file. -/
def get_triple_operations_list (revisions : List RevisionEntry) : Option (List OpI) :=
  getTripleOpsGo [] revisions

/-- One output line of `write_item_triple_operations_to_file` (source lines
273-276): the five fields in the order the extractor produced them, namely
`[subject, predicate, object, operation, timestamp]` (the comment at source
line 273 claims `[subject, object, predicate, ...]`, which does not match
line 207). -/
def formatTripleOpLine (op : OpI) : List String :=
  [pyStr op.subject_, pyStr op.predicate_, pyStr op.object_, op.operation_type, op.rev_ts]

/-- The pieces of the filesystem `write_item_triple_operations_to_file`
touches for one entity: its `.processed` marker and its triple-operations
output file (`none` = the file does not exist; a line is the list of its
fields). -/
structure EntityUnitState where
  processed_rev_marker : Bool
  output_file : Option (List (List String))
deriving DecidableEq, Repr

/-- `write_item_triple_operations_to_file` (source lines 250-278) for one
entity, on the decoded revision lines of its revision file. The Bool is
False when the unit raised: with a `None` operations list the source has
already opened in mode "wt" (and thereby truncated/created) the output file
when the `for` loop raises `TypeError`, so the file is left empty and the
marker is not created. -/
def write_item_triple_operations_to_file (revisions : List RevisionEntry)
    (st : EntityUnitState) : EntityUnitState × Bool :=
  if st.processed_rev_marker then (st, true)
  else
    match get_triple_operations_list revisions with
    | none =>
      ({ processed_rev_marker := false, output_file := some [] }, false)
    | some item_triple_operations =>
      ({ processed_rev_marker := true,
         output_file := some (item_triple_operations.map formatTripleOpLine) }, true)

theorem extractLoop_cons_ins (t : Int × Int × Int) (rest : List (Int × Int × Int)) (ts : String) :
    extractLoop (t :: rest) ts "ins" =
      { subject_ := t.1, predicate_ := t.2.1, object_ := t.2.2,
        operation_type := "+", rev_ts := ts } :: extractLoop rest ts "+" := rfl

theorem extractLoop_not_ins (l : List (Int × Int × Int)) :
    ∀ (ts oty : String), oty ≠ "ins" →
      (extractLoop l ts oty).map (fun op => op.operation_type) = l.map (fun _ => "-") := by
  induction l with
  | nil => intro ts oty h; rfl
  | cons x xs ih =>
    intro ts oty h
    rw [extractLoop]
    simp only [if_neg h, List.map_cons]
    rw [ih ts "-" (by decide)]

/-- Claim C2, the behavior at the code: because source line 206 rebinds
`operation_type`, an "ins" call labels only the first triple of the
difference `curr - prev` with "+" and every later one with "-" (whatever
iteration order the set yields); evaluated concretely at `prev` empty and
`curr = [t1, t2]`. The claim that EVERY triple of `curr - prev` becomes one
"+"-event therefore fails whenever the difference holds two or more
triples. -/
theorem claim_C2_insert_operations_mislabeled :
    (∀ (t : Int × Int × Int) (rest : List (Int × Int × Int)) (ts : String),
      (extractLoop (t :: rest) ts "ins").map (fun op => op.operation_type) =
        "+" :: rest.map (fun _ => "-")) ∧
    extract_item_triple_operations [(1, 2, 3), (1, 2, 4)] [] "ts1" "ins" =
      [ { subject_ := 1, predicate_ := 2, object_ := 3, operation_type := "+", rev_ts := "ts1" },
        { subject_ := 1, predicate_ := 2, object_ := 4, operation_type := "-", rev_ts := "ts1" } ] := by
  constructor
  · intro t rest ts
    rw [extractLoop_cons_ins, List.map_cons, extractLoop_not_ins rest ts "+" (by decide)]
  · decide

theorem buildClaimSet_mismatch_none (numeric_item_id : Int) :
    ∀ (claims acc : List (Int × Int × Int)),
      (∃ claim ∈ claims, claim.1 ≠ numeric_item_id) →
      buildClaimSet numeric_item_id claims acc = none := by
  intro claims
  induction claims with
  | nil =>
    rintro acc ⟨c, hc, _⟩
    cases hc
  | cons x xs ih =>
    rintro acc ⟨c, hc, hne⟩
    by_cases hx : x.1 = numeric_item_id
    · rcases List.mem_cons.mp hc with rfl | hmem
      · exact absurd hx hne
      · rw [buildClaimSet, if_pos hx]
        exact ih _ ⟨c, hmem, hne⟩
    · rw [buildClaimSet, if_neg hx]

theorem getTripleOpsGo_mismatch_none :
    ∀ (revisions : List RevisionEntry) (old_claims_set : List (Int × Int × Int)),
      (∃ rev ∈ revisions, ∃ claim ∈ rev.claims, claim.1 ≠ pyIntOfQid rev.item_id) →
      getTripleOpsGo old_claims_set revisions = none := by
  intro revisions
  induction revisions with
  | nil =>
    rintro old ⟨r, hr, _⟩
    cases hr
  | cons x xs ih =>
    rintro old ⟨r, hr, c, hc, hne⟩
    rcases List.mem_cons.mp hr with rfl | hmem
    · rw [getTripleOpsGo, buildClaimSet_mismatch_none _ _ _ ⟨c, hc, hne⟩]
    · rw [getTripleOpsGo]
      cases hbs : buildClaimSet (pyIntOfQid x.item_id) x.claims [] with
      | none => rfl
      | some s =>
        dsimp only
        rw [ih s ⟨r, hmem, c, hc, hne⟩]

/-- Claim C8: a claim whose subject differs from the owning entity's numeric
id anywhere in the revision batch makes `get_triple_operations_list` return
`None`, so no triple operations are produced for the entity — the output
file is left empty, operations derived from earlier revisions of the batch
included — and the entity's unit is not marked complete. -/
theorem claim_C8_subject_mismatch_aborts :
    ∀ (revisions : List RevisionEntry) (st : EntityUnitState),
      st.processed_rev_marker = false →
      (∃ rev ∈ revisions, ∃ claim ∈ rev.claims, claim.1 ≠ pyIntOfQid rev.item_id) →
      get_triple_operations_list revisions = none ∧
      write_item_triple_operations_to_file revisions st =
        ({ processed_rev_marker := false, output_file := some [] }, false) := by
  intro revisions st hm hex
  have hnone : get_triple_operations_list revisions = none :=
    getTripleOpsGo_mismatch_none revisions [] hex
  refine ⟨hnone, ?_⟩
  rw [write_item_triple_operations_to_file, if_neg (by simp [hm]), hnone]

def c8rev : RevisionEntry :=
  { item_id := "Q5", revision := "7", timestamp := "T1", claims := [(5, 1, 2), (6, 1, 2)] }

/-- Witness for C8: a batch whose second claim has subject 6 under entity Q5;
its first revision already yielded an insert operation for claim (5, 1, 2),
yet nothing is produced. -/
theorem claim_C8_witness :
    get_triple_operations_list [c8rev] = none ∧
    write_item_triple_operations_to_file [c8rev]
        { processed_rev_marker := false, output_file := none } =
      ({ processed_rev_marker := false, output_file := some [] }, false) :=
  claim_C8_subject_mismatch_aborts [c8rev]
    { processed_rev_marker := false, output_file := none } rfl
    ⟨c8rev, by decide, (6, 1, 2), by decide, by decide⟩

/-! ### The claim normalizer: claim C4 -/

/-- Python `s.lower()` (structural re-implementation, see header). -/
def pyToLower (s : String) : String := ⟨s.toList.map Char.toLower⟩

/-- `mainsnak[\'datavalue\'][\'value\']` as used at source lines 370-388:
`entity-type`, `numeric-id` and the optional `id` key (the latter only feeds
the non-fatal diagnostic of lines 385-388, which the model drops). -/
structure ObjValueDict where
  entity_ty : String
  numeric_id : Int
  idStr : Option String
deriving DecidableEq, Repr

/-- `mainsnak[\'datavalue\']`: its `type` and its `value`. -/
structure DataValueDict where
  value_ty : String
  value : ObjValueDict
deriving DecidableEq, Repr

/-- A `mainsnak`: `snaktype`, and `datavalue` which may be absent (when
`snaktype` is `somevalue` or `novalue`). -/
structure MainsnakDict where
  snaktype : String
  datavalue : Option DataValueDict
deriving DecidableEq, Repr

/-- One claim statement: its `rank` and its `mainsnak`. -/
structure ClaimDict where
  rank : String
  mainsnak : MainsnakDict
deriving DecidableEq, Repr

/-- The decoded structural snapshot document, with the keys the parser and
`get_truthy_claims_list` read: the `type` and `id` keys (optional, presence
is tested at source line 572) and `claims` as an insertion-ordered relation
to claim-statement list mapping. -/
structure ItemDict where
  ty : Option String
  id : Option String
  claims : List (String × List ClaimDict)
deriving DecidableEq, Repr

/-- The `for claim_dict in claim_list` loop of `get_truthy_claims_list`
(source lines 350-388) for one relation `proprty`: returns the pair
`(preferred_statements, normal_statements)` accumulated in source order. -/
def truthyLoop (item_id proprty : String) :
    List ClaimDict → List (Int × Int × Int) × List (Int × Int × Int)
  | [] => ([], [])
  | claim_dict :: rest =>
    let r := truthyLoop item_id proprty rest
    let rank := pyToLower claim_dict.rank
    if rank ≠ "deprecated" then
      let mainsnak := claim_dict.mainsnak
      let snak_type := pyToLower mainsnak.snaktype
      if snak_type = "value" then
        match mainsnak.datavalue with
        | some datavalue =>
          if datavalue.value_ty = "wikibase-entityid" then
            if datavalue.value.entity_ty = "item" then
              let triple := (pyIntOfQid item_id, pyIntOfQid proprty, datavalue.value.numeric_id)
              if rank = "preferred" then (triple :: r.1, r.2)
              else if rank = "normal" then (r.1, triple :: r.2)
              else r
            else r
          else r
        | none => r
      else r
    else r

/-- `get_truthy_claims_list` (source lines 338-395): per relation, the
preferred statements if any exist, else the normal ones, concatenated over
the relations in document order. (The source reads `item_dict["id"]`
unconditionally at line 343; its callers have checked the key exists.) -/
def get_truthy_claims_list (item_dict : ItemDict) : List (Int × Int × Int) :=
  if item_dict.claims.length > 0 then
    item_dict.claims.foldl
      (fun statements pc =>
        let pn := truthyLoop (item_dict.id.getD "") pc.1 pc.2
        statements ++ (if pn.1 ≠ [] then pn.1 else pn.2)) []
  else []

/-- Spec-side reading of one claim statement, following the claim wording:
whether the statement "yields a triple" (its snak type is `value`, it has a
`datavalue` of type `wikibase-entityid` whose value is an `item`),
independent of rank. -/
def yieldsTriple (item_id proprty : String) (claim_dict : ClaimDict) :
    Option (Int × Int × Int) :=
  if pyToLower claim_dict.mainsnak.snaktype = "value" then
    match claim_dict.mainsnak.datavalue with
    | some datavalue =>
      if datavalue.value_ty = "wikibase-entityid" ∧ datavalue.value.entity_ty = "item" then
        some (pyIntOfQid item_id, pyIntOfQid proprty, datavalue.value.numeric_id)
      else none
    | none => none
  else none

/-- Spec-side: the triples yielded by the preferred-rank claims of one
relation. -/
def preferredTriples (item_id proprty : String) (claim_list : List ClaimDict) :
    List (Int × Int × Int) :=
  claim_list.filterMap fun claim_dict =>
    if pyToLower claim_dict.rank = "preferred" then yieldsTriple item_id proprty claim_dict
    else none

/-- Spec-side: the triples yielded by the normal-rank claims of one
relation. -/
def normalTriples (item_id proprty : String) (claim_list : List ClaimDict) :
    List (Int × Int × Int) :=
  claim_list.filterMap fun claim_dict =>
    if pyToLower claim_dict.rank = "normal" then yieldsTriple item_id proprty claim_dict
    else none

theorem truthyLoop_eq_filterMaps (item_id proprty : String) :
    ∀ claim_list : List ClaimDict,
      truthyLoop item_id proprty claim_list =
        (preferredTriples item_id proprty claim_list,
         normalTriples item_id proprty claim_list) := by
  intro claim_list
  induction claim_list with
  | nil => rfl
  | cons cd rest ih =>
    rcases cd with ⟨rank, ⟨snaktype, dv⟩⟩
    by_cases hdep : pyToLower rank = "deprecated"
    · have h1 : pyToLower rank ≠ "preferred" := by rw [hdep]; decide
      have h2 : pyToLower rank ≠ "normal" := by rw [hdep]; decide
      simp [truthyLoop, preferredTriples, normalTriples, List.filterMap_cons, hdep, h1, h2] at ih ⊢
      exact ih
    · by_cases hsnak : pyToLower snaktype = "value"
      · cases dv with
        | none =>
          simp [truthyLoop, preferredTriples, normalTriples, List.filterMap_cons, yieldsTriple,
                hdep, hsnak] at ih ⊢
          exact ih
        | some datavalue =>
          by_cases hty : datavalue.value_ty = "wikibase-entityid"
          · by_cases hety : datavalue.value.entity_ty = "item"
            · by_cases hpref : pyToLower rank = "preferred"
              · simp [truthyLoop, preferredTriples, normalTriples, List.filterMap_cons,
                      yieldsTriple, hdep, hsnak, hty, hety, hpref, ih]
              · by_cases hnorm : pyToLower rank = "normal"
                · simp [truthyLoop, preferredTriples, normalTriples, List.filterMap_cons,
                        yieldsTriple, hdep, hsnak, hty, hety, hpref, hnorm, ih]
                · simp [truthyLoop, preferredTriples, normalTriples, List.filterMap_cons,
                        yieldsTriple, hdep, hsnak, hty, hety, hpref, hnorm, ih]
            · simp [truthyLoop, preferredTriples, normalTriples, List.filterMap_cons,
                    yieldsTriple, hdep, hsnak, hty, hety, ih]
          · simp [truthyLoop, preferredTriples, normalTriples, List.filterMap_cons,
                  yieldsTriple, hdep, hsnak, hty, ih]
      · simp [truthyLoop, preferredTriples, normalTriples, List.filterMap_cons, yieldsTriple,
              hdep, hsnak] at ih ⊢
        exact ih

theorem foldl_append_flatten {α β : Type} (g : α → List β) :
    ∀ (l : List α) (s : List β),
      l.foldl (fun acc x => acc ++ g x) s = s ++ (l.map g).flatten := by
  intro l
  induction l with
  | nil => intro s; simp
  | cons x xs ih => intro s; simp [List.foldl_cons, ih]

/-- Claim C4: per snapshot document and relation, deprecated-rank claims
never contribute; if at least one preferred-rank claim yields a triple the
relation contributes exactly the preferred-yielded triples (no normal-rank
triple), and otherwise it contributes all normal-yielded triples. -/
theorem claim_C4_rank_selection :
    (∀ item_dict : ItemDict,
      get_truthy_claims_list item_dict =
        (item_dict.claims.map (fun pc =>
          let preferred_statements := preferredTriples (item_dict.id.getD "") pc.1 pc.2
          let normal_statements := normalTriples (item_dict.id.getD "") pc.1 pc.2
          if preferred_statements = [] then normal_statements
          else preferred_statements)).flatten) ∧
    (∀ (item_id proprty : String) (claim_list : List ClaimDict),
      (∀ claim_dict ∈ claim_list, pyToLower claim_dict.rank = "deprecated") →
      truthyLoop item_id proprty claim_list = ([], [])) := by
  constructor
  · intro item_dict
    rw [get_truthy_claims_list]
    by_cases hlen : item_dict.claims.length > 0
    · rw [if_pos hlen, foldl_append_flatten, List.nil_append]
      congr 1
      apply List.map_congr_left
      intro pc _
      rw [truthyLoop_eq_filterMaps]
      dsimp only
      rw [ite_not]
    · rw [if_neg hlen]
      have : item_dict.claims = [] := List.length_eq_zero.mp (by omega)
      rw [this]
      rfl
  · intro item_id proprty claim_list hall
    induction claim_list with
    | nil => rfl
    | cons cd rest ih =>
      have hcd := hall cd (List.mem_cons_self cd rest)
      have hrest := ih fun c hc => hall c (List.mem_cons_of_mem cd hc)
      rw [truthyLoop, if_neg (by simp [hcd]), hrest]

def c4dep : ClaimDict :=
  { rank := "Deprecated",
    mainsnak := { snaktype := "value",
                  datavalue := some { value_ty := "wikibase-entityid",
                                      value := { entity_ty := "item", numeric_id := 9,
                                                 idStr := none } } } }

/-- Witness for C4: a relation holding one deprecated claim (whose value
would otherwise yield a triple) yields nothing. -/
theorem claim_C4_witness : truthyLoop "Q1" "P2" [c4dep] = ([], []) :=
  claim_C4_rank_selection.2 "Q1" "P2" [c4dep] (by decide)

/-! ### The revision writer: claim C9 -/

/-- The per-archive revision-file store: output filename to stored revision
lines, in append order. -/
abbrev FileMap : Type := List (String × List RevisionEntry)

/-- The output filename chosen at source lines 302-304. -/
def revisionOutputFilename (dump_file_name item_id : String) (item_is_redirected : Bool) :
    String :=
  if item_is_redirected then
    "redirected_" ++ dump_file_name ++ "_" ++ item_id ++ ".json.bz2"
  else dump_file_name ++ "_" ++ item_id ++ ".json.bz2"

/-- `save_item_revision_to_json_file` (source lines 296-313): appends the
revision to the entity's file, creating the file if needed (mode "at"),
except that nothing is stored when the file does not exist yet and the
revision's claim list is empty (lines 306-308). -/
def save_item_revision_to_json_file (files : FileMap) (dump_file_name item_id : String)
    (revision_dict : RevisionEntry) (item_is_redirected : Bool) : FileMap :=
  let output_filepath := revisionOutputFilename dump_file_name item_id item_is_redirected
  match lookupA files output_filepath with
  | none =>
    if revision_dict.claims.length = 0 then files
    else insertA files output_filepath [revision_dict]
  | some content => insertA files output_filepath (content ++ [revision_dict])

/-- The C9 invariant over the store: every existing revision file holds at
least one revision and its first stored revision has a nonempty claim
list. -/
def goodFiles (files : FileMap) : Prop :=
  ∀ fname content, lookupA files fname = some content →
    ∃ r rest, content = r :: rest ∧ r.claims ≠ []

theorem goodFiles_nil : goodFiles [] := by
  intro fname content h
  cases h

theorem goodFiles_save (files : FileMap) (dump_file_name item_id : String)
    (revision_dict : RevisionEntry) (item_is_redirected : Bool) (hg : goodFiles files) :
    goodFiles (save_item_revision_to_json_file files dump_file_name item_id revision_dict
      item_is_redirected) := by
  intro fname content h
  rw [save_item_revision_to_json_file] at h
  rcases hl : lookupA files (revisionOutputFilename dump_file_name item_id item_is_redirected)
    with _ | oldc
  · rw [hl] at h
    dsimp only at h
    by_cases hcl : revision_dict.claims.length = 0
    · rw [if_pos hcl] at h
      exact hg fname content h
    · rw [if_neg hcl] at h
      rw [insertA] at h
      rw [lookupA] at h
      by_cases hf : fname = revisionOutputFilename dump_file_name item_id item_is_redirected
      · rw [if_pos hf] at h
        obtain rfl : content = [revision_dict] := (Option.some.inj h).symm
        exact ⟨revision_dict, [], rfl, fun he => hcl (by rw [he]; rfl)⟩
      · rw [if_neg hf] at h
        exact hg fname content h
  · rw [hl] at h
    dsimp only at h
    rw [insertA] at h
    rw [lookupA] at h
    by_cases hf : fname = revisionOutputFilename dump_file_name item_id item_is_redirected
    · rw [if_pos hf] at h
      obtain rfl : content = oldc ++ [revision_dict] := (Option.some.inj h).symm
      rcases hg _ oldc hl with ⟨r, rest, hrc, hne⟩
      exact ⟨r, rest ++ [revision_dict], by rw [hrc]; rfl, hne⟩
    · rw [if_neg hf] at h
      exact hg fname content h

/-- Claim C9: per call, nothing is stored when no output for the entity
exists and the claim list is empty; otherwise the snapshot is appended —
when no file exists (and the claim list is nonempty) the file is created
holding exactly this revision, and when the file exists the revision is
appended to its content; and starting from an empty store, after any
sequence of saves no stored snapshot sequence begins with an empty-claims
revision. -/
theorem claim_C9_no_empty_baseline :
    (∀ (files : FileMap) (dump_file_name item_id : String) (revision_dict : RevisionEntry)
        (item_is_redirected : Bool),
      lookupA files (revisionOutputFilename dump_file_name item_id item_is_redirected) = none →
      revision_dict.claims = [] →
      save_item_revision_to_json_file files dump_file_name item_id revision_dict
        item_is_redirected = files) ∧
    (∀ (files : FileMap) (dump_file_name item_id : String) (revision_dict : RevisionEntry)
        (item_is_redirected : Bool),
      lookupA files (revisionOutputFilename dump_file_name item_id item_is_redirected) = none →
      revision_dict.claims ≠ [] →
      save_item_revision_to_json_file files dump_file_name item_id revision_dict
        item_is_redirected =
        insertA files (revisionOutputFilename dump_file_name item_id item_is_redirected)
          [revision_dict]) ∧
    (∀ (files : FileMap) (dump_file_name item_id : String) (revision_dict : RevisionEntry)
        (item_is_redirected : Bool) (content : List RevisionEntry),
      lookupA files (revisionOutputFilename dump_file_name item_id item_is_redirected) =
        some content →
      save_item_revision_to_json_file files dump_file_name item_id revision_dict
        item_is_redirected =
        insertA files (revisionOutputFilename dump_file_name item_id item_is_redirected)
          (content ++ [revision_dict])) ∧
    (∀ (files : FileMap) (dump_file_name item_id : String) (revision_dict : RevisionEntry)
        (item_is_redirected : Bool),
      goodFiles files →
      goodFiles (save_item_revision_to_json_file files dump_file_name item_id revision_dict
        item_is_redirected)) ∧
    (∀ saves : List (String × String × RevisionEntry × Bool),
      goodFiles (saves.foldl
        (fun files x =>
          save_item_revision_to_json_file files x.1 x.2.1 x.2.2.1 x.2.2.2) [])) := by
  have hfold : ∀ (saves : List (String × String × RevisionEntry × Bool)) (files : FileMap),
      goodFiles files →
      goodFiles (saves.foldl
        (fun files x =>
          save_item_revision_to_json_file files x.1 x.2.1 x.2.2.1 x.2.2.2) files) := by
    intro saves
    induction saves with
    | nil => intro files h; exact h
    | cons x xs ih =>
      intro files h
      exact ih _ (goodFiles_save _ _ _ _ _ h)
  refine ⟨?_, ?_, ?_, fun files d i rev red h => goodFiles_save files d i rev red h,
          fun saves => hfold saves [] goodFiles_nil⟩
  · intro files d i rev red hl hcl
    rw [save_item_revision_to_json_file]
    rw [hl]
    dsimp only
    rw [if_pos (show rev.claims.length = 0 by rw [hcl]; rfl)]
  · intro files d i rev red hl hcl
    rw [save_item_revision_to_json_file]
    rw [hl]
    dsimp only
    rw [if_neg (fun h0 => hcl (List.length_eq_zero.mp h0))]
  · intro files d i rev red content hl
    rw [save_item_revision_to_json_file]
    rw [hl]

def c9rev0 : RevisionEntry := { item_id := "Q5", revision := "1", timestamp := "T0", claims := [] }

def c9rev1 : RevisionEntry :=
  { item_id := "Q5", revision := "2", timestamp := "T1", claims := [(5, 1, 7)] }

/-- Witness for C9: the empty-claims first revision is suppressed, an
existing file gets the revision appended, the invariant is preserved from a
concrete good store, and a concrete save sequence yields a good store. -/
theorem claim_C9_witness :
    save_item_revision_to_json_file [] "dump1" "Q5" c9rev0 false = [] ∧
    save_item_revision_to_json_file [] "dump1" "Q5" c9rev1 false =
      insertA [] "dump1_Q5.json.bz2" [c9rev1] ∧
    save_item_revision_to_json_file [("dump1_Q5.json.bz2", [c9rev1])] "dump1" "Q5" c9rev0
        false =
      insertA [("dump1_Q5.json.bz2", [c9rev1])] "dump1_Q5.json.bz2" ([c9rev1] ++ [c9rev0]) ∧
    goodFiles (save_item_revision_to_json_file [] "dump1" "Q5" c9rev1 false) ∧
    goodFiles ([("dump1", "Q5", c9rev0, false), ("dump1", "Q5", c9rev1, false)].foldl
      (fun files x =>
        save_item_revision_to_json_file files x.1 x.2.1 x.2.2.1 x.2.2.2) []) :=
  ⟨claim_C9_no_empty_baseline.1 [] "dump1" "Q5" c9rev0 false rfl rfl,
   claim_C9_no_empty_baseline.2.1 [] "dump1" "Q5" c9rev1 false rfl (by decide),
   claim_C9_no_empty_baseline.2.2.1 [("dump1_Q5.json.bz2", [c9rev1])] "dump1" "Q5" c9rev0
     false [c9rev1] (by decide),
   claim_C9_no_empty_baseline.2.2.2.1 [] "dump1" "Q5" c9rev1 false goodFiles_nil,
   claim_C9_no_empty_baseline.2.2.2.2 [("dump1", "Q5", c9rev0, false),
     ("dump1", "Q5", c9rev1, false)]⟩

/-! ### Line primitives of the dump parser -/

/-- Python `line.startswith(head)` (auxiliary). -/
def listIsPrefix : List Char → List Char → Bool
  | [], _ => true
  | _ :: _, [] => false
  | a :: as, b :: bs => a = b && listIsPrefix as bs

/-- Python `line.startswith(head)`. -/
def pyStartsWith (line head : String) : Bool := listIsPrefix head.toList line.toList

/-- Python slicing `line[a:-b]`. -/
def pySlice (line : String) (a b : Nat) : String :=
  ⟨(line.toList.drop a).take ((line.toList.drop a).length - b)⟩

/-- `line[len(head):-len(tail)]` as used throughout `parse_xml_dump`. -/
def pyStripTag (line head tail : String) : String :=
  pySlice line head.toList.length tail.toList.length

/-- Python `line.find(c)` (auxiliary): index of the first occurrence. -/
def pyFindChar : List Char → Char → Nat → Option Nat
  | [], _, _ => none
  | a :: rest, c, i => if a = c then some i else pyFindChar rest c (i + 1)

/-- `line[line.find(">") + 1 : -len("</text>") - 1]` (source line 566); a
missing `>` makes Python `find` yield -1 and the start index 0. -/
def textPayload (line : String) : String :=
  match pyFindChar line.toList '>' 0 with
  | some i => pySlice line (i + 1) 8
  | none => pySlice line 0 8

/-! ### The dump parser: claims C5 and C1 -/

/-- Per-record parser state of `parse_xml_dump` (source lines 538-545)
together with the filesystem pieces the parser writes: the per-entity
revision files and the redirects side log. (The locals `text`, `claims`,
`item_dict`, `comment` and the like are recomputed or unused per line and
carry no cross-line state.) -/
structure ParseState where
  item_id : Option String
  revision_id : Option String
  timestamp : Option String
  format : Option String
  item_was_redirected : Bool
  files : FileMap
  redirects_log : List (String × String)

/-- The reset of source lines 578-591, executed at every `  </page>` and
every `    </revision>` boundary line. -/
def pyResetRecord (st : ParseState) : ParseState :=
  { st with item_id := none, revision_id := none, timestamp := none, format := none,
            item_was_redirected := false }

/-- The stand-alone `if` of source lines 548-549 (`<title>`). -/
def parseStepTitle (line : String) (st : ParseState) : ParseState :=
  if pyStartsWith line "    <title>" then
    { st with item_id := some (pyStripTag line "    <title>" ("</title>" ++ "\n")) }
  else st

/-- The `if`/`elif` chain of source lines 551-576, from the redirect marker
through the `<text>` payload. `loads` stands for the external `unescape` +
`json.loads` pair of lines 569-570; on the lines modelled here the source
raises where `loads` yields `none`, a path no modelled input takes, and it
would raise `AttributeError` on a redirect line with no preceding title. -/
def parseStepTags (loads : String → Option ItemDict) (dump_file_name : String)
    (line : String) (st : ParseState) : ParseState :=
  if pyStartsWith line "    <redirect title" then
    match st.item_id with
    | some iid =>
      if pyStartsWith iid "Q" then
        let redir_target_item_id := pyStripTag line "    <redirect title =" ("\" />" ++ "\n")
        { st with item_was_redirected := true,
                  redirects_log := st.redirects_log ++
                    [(⟨iid.toList.drop 1⟩, ⟨redir_target_item_id.toList.drop 1⟩)] }
      else st
    | none => st
  else if pyStartsWith line "      <id>" then
    { st with revision_id := some (pyStripTag line "      <id>" ("</id>" ++ "\n")) }
  else if pyStartsWith line "      <timestamp>" then
    { st with timestamp := some (pyStripTag line "      <timestamp>" ("</timestamp>" ++ "\n")) }
  else if pyStartsWith line "      <comment>" then st
  else if pyStartsWith line "      <format>" then
    { st with format := some (pyStripTag line "      <format>" ("</format>" ++ "\n")) }
  else if pyStartsWith line "      <text bytes" then
    -- `item_id and item_id.startswith("Q")`: both `None` and `""` are falsy,
    -- so the guard is equivalent to this decidable form
    if st.format = some "application/json" ∧
        st.item_id.getD "" ≠ "" ∧ pyStartsWith (st.item_id.getD "") "Q" = true then
      let text := textPayload line
      if text.toList.length > 0 then
        match loads text with
        | some item_dict =>
          if item_dict.ty.isSome ∧ item_dict.id.isSome then
            let claim_triple_list := get_truthy_claims_list item_dict
            let revision_dict : RevisionEntry :=
              { item_id := st.item_id.getD "", revision := st.revision_id.getD "",
                timestamp := st.timestamp.getD "", claims := claim_triple_list }
            { st with files := save_item_revision_to_json_file st.files dump_file_name
                        (st.item_id.getD "") revision_dict st.item_was_redirected }
          else st
        | none => st
      else st
    else st
  else st

/-- The boundary reset of source line 578. -/
def parseStepReset (line : String) (st : ParseState) : ParseState :=
  if line = "  </page>" ++ "\n" ∨ line = "    </revision>" ++ "\n" then pyResetRecord st
  else st

/-- One iteration of the `for line in xml_dump` loop of `parse_xml_dump`
(source lines 547-591). -/
def parseStep (loads : String → Option ItemDict) (dump_file_name : String)
    (st : ParseState) (line : String) : ParseState :=
  parseStepReset line (parseStepTags loads dump_file_name line (parseStepTitle line st))

/-- `parse_xml_dump` (source lines 532-591): fold the per-line step over the
archive's lines, starting from the all-`None` record state of lines 538-545,
on a given initial filesystem. -/
def parse_xml_dump (loads : String → Option ItemDict) (dump_file_name : String)
    (lines : List String) (files : FileMap) (redirects_log : List (String × String)) :
    ParseState :=
  lines.foldl (parseStep loads dump_file_name)
    { item_id := none, revision_id := none, timestamp := none, format := none,
      item_was_redirected := false, files := files, redirects_log := redirects_log }

/-- The filesystem pieces `process_dump_file` touches: the archive's
`.processed` marker plus whatever `parse_xml_dump` writes. -/
structure DumpUnitState where
  processed_marker : Bool
  files : FileMap
  redirects_log : List (String × String)

/-- `process_dump_file` (source lines 594-607): skip when the marker exists,
otherwise parse the whole archive and only then create the marker. -/
def process_dump_file (loads : String → Option ItemDict) (dump_file_name : String)
    (lines : List String) (st : DumpUnitState) : DumpUnitState :=
  if st.processed_marker then st
  else
    let p := parse_xml_dump loads dump_file_name lines st.files st.redirects_log
    { processed_marker := true, files := p.files, redirects_log := p.redirects_log }

/-! ### Test fixtures: a minimal dump with decodable payloads -/

/-- A snapshot document for entity Q5 with one normal-rank claim
`(Q5, P1, Q7)`. -/
def testItemA : ItemDict :=
  { ty := some "item", id := some "Q5",
    claims := [("P1",
      [{ rank := "normal",
         mainsnak := { snaktype := "value",
                       datavalue := some { value_ty := "wikibase-entityid",
                                           value := { entity_ty := "item", numeric_id := 7,
                                                      idStr := none } } } }])] }

/-- Like `testItemA` but with object Q8, so its claim set differs. -/
def testItemB : ItemDict :=
  { ty := some "item", id := some "Q5",
    claims := [("P1",
      [{ rank := "normal",
         mainsnak := { snaktype := "value",
                       datavalue := some { value_ty := "wikibase-entityid",
                                           value := { entity_ty := "item", numeric_id := 8,
                                                      idStr := none } } } }])] }

/-- A concrete `loads` decoding the two payload strings of the fixtures. -/
def testLoads : String → Option ItemDict := fun s =>
  if s = "PAYLOADA" then some testItemA
  else if s = "PAYLOADB" then some testItemB
  else none

/-- One page of entity Q5 with two revisions (timestamps T1, T2), whose claim
sets differ. -/
def dumpLinesTwoRevisions : List String :=
  [ "  <page>" ++ "\n",
    "    <title>Q5</title>" ++ "\n",
    "    <revision>" ++ "\n",
    "      <id>101</id>" ++ "\n",
    "      <timestamp>T1</timestamp>" ++ "\n",
    "      <format>application/json</format>" ++ "\n",
    "      <text bytes=" ++ "\"8\"" ++ ">PAYLOADA</text>" ++ "\n",
    "    </revision>" ++ "\n",
    "    <revision>" ++ "\n",
    "      <id>102</id>" ++ "\n",
    "      <timestamp>T2</timestamp>" ++ "\n",
    "      <format>application/json</format>" ++ "\n",
    "      <text bytes=" ++ "\"8\"" ++ ">PAYLOADB</text>" ++ "\n",
    "    </revision>" ++ "\n",
    "  </page>" ++ "\n" ]

/-- The same two revisions, each inside its own page (so each gets its own
`<title>` line). -/
def dumpLinesTwoPages : List String :=
  [ "  <page>" ++ "\n",
    "    <title>Q5</title>" ++ "\n",
    "    <revision>" ++ "\n",
    "      <id>101</id>" ++ "\n",
    "      <timestamp>T1</timestamp>" ++ "\n",
    "      <format>application/json</format>" ++ "\n",
    "      <text bytes=" ++ "\"8\"" ++ ">PAYLOADA</text>" ++ "\n",
    "    </revision>" ++ "\n",
    "  </page>" ++ "\n",
    "  <page>" ++ "\n",
    "    <title>Q5</title>" ++ "\n",
    "    <revision>" ++ "\n",
    "      <id>102</id>" ++ "\n",
    "      <timestamp>T2</timestamp>" ++ "\n",
    "      <format>application/json</format>" ++ "\n",
    "      <text bytes=" ++ "\"8\"" ++ ">PAYLOADB</text>" ++ "\n",
    "    </revision>" ++ "\n",
    "  </page>" ++ "\n" ]

/-- Two pages of entity Q5 whose payloads decode to the SAME claim set. -/
def dumpLinesTwoPagesSame : List String :=
  [ "  <page>" ++ "\n",
    "    <title>Q5</title>" ++ "\n",
    "    <revision>" ++ "\n",
    "      <id>101</id>" ++ "\n",
    "      <timestamp>T1</timestamp>" ++ "\n",
    "      <format>application/json</format>" ++ "\n",
    "      <text bytes=" ++ "\"8\"" ++ ">PAYLOADA</text>" ++ "\n",
    "    </revision>" ++ "\n",
    "  </page>" ++ "\n",
    "  <page>" ++ "\n",
    "    <title>Q5</title>" ++ "\n",
    "    <revision>" ++ "\n",
    "      <id>102</id>" ++ "\n",
    "      <timestamp>T2</timestamp>" ++ "\n",
    "      <format>application/json</format>" ++ "\n",
    "      <text bytes=" ++ "\"8\"" ++ ">PAYLOADA</text>" ++ "\n",
    "    </revision>" ++ "\n",
    "  </page>" ++ "\n" ]

/-- Claim C5, the behavior at the code, evaluated on concrete archives.
First conjunct: on one page holding two revisions with differing claim sets,
only the first revision's snapshot is stored — the reset at the first
`    </revision>` boundary clears `item_id`, which only the page-level
`<title>` line sets, so the second revision fails the `item_id` guard on its
`<text>` line and is skipped. Second conjunct: the same two revisions each
in their own page are both stored, isolating the reset as the cause. Third
conjunct: two revisions with identical claim sets are both stored when each
has its own page — snapshots are appended without comparing against the
prior claim set. -/
theorem claim_C5_reset_skips_later_revisions :
    lookupA (parse_xml_dump testLoads "dump1" dumpLinesTwoRevisions [] []).files
        "dump1_Q5.json.bz2" =
      some
        [{ item_id := "Q5", revision := "101", timestamp := "T1", claims := [(5, 1, 7)] }] ∧
    lookupA (parse_xml_dump testLoads "dump1" dumpLinesTwoPages [] []).files
        "dump1_Q5.json.bz2" =
      some
        [{ item_id := "Q5", revision := "101", timestamp := "T1", claims := [(5, 1, 7)] },
         { item_id := "Q5", revision := "102", timestamp := "T2", claims := [(5, 1, 8)] }] ∧
    lookupA (parse_xml_dump testLoads "dump1" dumpLinesTwoPagesSame [] []).files
        "dump1_Q5.json.bz2" =
      some
        [{ item_id := "Q5", revision := "101", timestamp := "T1", claims := [(5, 1, 7)] },
         { item_id := "Q5", revision := "102", timestamp := "T2", claims := [(5, 1, 7)] }] := by
  refine ⟨by decide, by decide, by decide⟩

/-! ### The aggregation step: claim C3 -/

/-- The two allow-lists loaded by `compile_triple_operations`
(source lines 683-685). -/
structure AggFilters where
  filtered_entities : List String
  filtered_relations : List String
deriving Repr

/-- One line of the inner loop of
`collect_subfolder_triple_operations_to_file` (source lines 631-646). The
line is the list of its whitespace-separated fields, unpacked positionally at
source line 632 as `subject_, object_, predicate_, operation_type, ts`;
`none` means the `continue` of line 643 drops the line. (A line without
exactly five fields would raise `ValueError`.) An empty `redir_dict` is
falsy in Python, skipping redirect resolution. -/
def collectLine (redir_dict : List (String × String)) (filters : Option AggFilters) :
    List String → Option (List String)
  | [subject_, object_, predicate_, operation_type, ts] =>
    let object_ := if redir_dict ≠ [] then (lookupA redir_dict object_).getD object_ else object_
    match filters with
    | some fs =>
      if ¬ (subject_ ∈ fs.filtered_entities ∧ object_ ∈ fs.filtered_entities ∧
            predicate_ ∈ fs.filtered_relations) ∨ subject_ = object_ then none
      else some [subject_, object_, predicate_, operation_type, ts]
    | none => some [subject_, object_, predicate_, operation_type, ts]
  | _ => none

/-- The filesystem pieces the aggregation touches for one per-entity
operations file: its `.processed` marker and the shared compiled output file
that the single writer process appends to (mode "at"). -/
structure ShardUnitState where
  processed_triple_ops_marker : Bool
  shared_output : List (List String)
deriving Repr

/-- The per-file body of `collect_subfolder_triple_operations_to_file`
(source lines 622-650): skip when the marker exists; otherwise filter the
lines and, only when at least one line qualifies, enqueue them for the
writer and create the marker. -/
def collect_subfolder_file (redir_dict : List (String × String)) (filters : Option AggFilters)
    (lines : List (List String)) (st : ShardUnitState) : ShardUnitState :=
  if st.processed_triple_ops_marker then st
  else
    let output_lines := lines.filterMap (collectLine redir_dict filters)
    if output_lines ≠ [] then
      { processed_triple_ops_marker := true,
        shared_output := st.shared_output ++ output_lines }
    else st

/-- Claim C3, the behavior at the code, on the operation
`(subject Q5, relation P17, object Q159)` as the extractor writes it.
Conjunct 1: the stored line is `5 17 159 + T` — subject, RELATION, object
(source line 207) — though the aggregator reads position 1 as the object.
Conjunct 2: with the redirect `159 -> 160` for the real object, the line
passes through unchanged: the object is NOT resolved. Conjunct 3: with the
redirect `17 -> 99`, the RELATION field is rewritten instead. Conjunct 4:
with allow-lists that contain the subject, the object and the relation (so
the claim says the event is emitted), the line is dropped: the filter tests
position 1 (the relation) against the entity list and position 2 (the
object) against the relation list. -/
theorem claim_C3_redirect_applied_to_relation_field :
    (extract_item_triple_operations [(5, 17, 159)] [] "T" "ins").map formatTripleOpLine =
      [["5", "17", "159", "+", "T"]] ∧
    collectLine [("159", "160")] none ["5", "17", "159", "+", "T"] =
      some ["5", "17", "159", "+", "T"] ∧
    collectLine [("17", "99")] none ["5", "17", "159", "+", "T"] =
      some ["5", "99", "159", "+", "T"] ∧
    collectLine []
        (some { filtered_entities := ["5", "159"], filtered_relations := ["17"] })
        ["5", "17", "159", "+", "T"] = none := by
  refine ⟨by decide, by decide, by decide, by decide⟩

/-! ### Checkpointing across the stages: claim C1 -/

/-- Store extension: every existing file keeps its current content as a
prefix — nothing is deleted or truncated, only appended. -/
def FilesExtend (files1 files2 : FileMap) : Prop :=
  ∀ fname content, lookupA files1 fname = some content →
    ∃ suffix, lookupA files2 fname = some (content ++ suffix)

theorem filesExtend_refl (files : FileMap) : FilesExtend files files :=
  fun _ content h => ⟨[], by rw [h, List.append_nil]⟩

theorem filesExtend_trans {f1 f2 f3 : FileMap} (h12 : FilesExtend f1 f2)
    (h23 : FilesExtend f2 f3) : FilesExtend f1 f3 := by
  intro fname content h
  rcases h12 fname content h with ⟨s1, h1⟩
  rcases h23 fname _ h1 with ⟨s2, h2⟩
  exact ⟨s1 ++ s2, by rw [h2, List.append_assoc]⟩

/-- One `save_item_revision_to_json_file` call only ever appends: every file
in the store keeps its content as a prefix (the output is opened in mode
"at"). -/
theorem save_extends (files : FileMap) (dump_file_name item_id : String)
    (revision_dict : RevisionEntry) (item_is_redirected : Bool) :
    FilesExtend files
      (save_item_revision_to_json_file files dump_file_name item_id revision_dict
        item_is_redirected) := by
  intro fname content h
  rw [save_item_revision_to_json_file]
  rcases hl : lookupA files (revisionOutputFilename dump_file_name item_id item_is_redirected)
    with _ | oldc
  · dsimp only
    by_cases hcl : revision_dict.claims.length = 0
    · rw [if_pos hcl]
      exact ⟨[], by rw [h, List.append_nil]⟩
    · rw [if_neg hcl, insertA, lookupA]
      by_cases hf : fname = revisionOutputFilename dump_file_name item_id item_is_redirected
      · rw [hf] at h
        rw [h] at hl
        exact Option.noConfusion hl
      · rw [if_neg hf]
        exact ⟨[], by rw [h, List.append_nil]⟩
  · dsimp only
    rw [insertA, lookupA]
    by_cases hf : fname = revisionOutputFilename dump_file_name item_id item_is_redirected
    · rw [if_pos hf]
      have hco : content = oldc := by
        rw [hf] at h
        rw [h] at hl
        exact Option.some.inj hl
      exact ⟨[revision_dict], by rw [hco]⟩
    · rw [if_neg hf]
      exact ⟨[], by rw [h, List.append_nil]⟩

theorem parseStepTitle_files (line : String) (st : ParseState) :
    (parseStepTitle line st).files = st.files := by
  rw [parseStepTitle]
  split <;> rfl

theorem parseStepReset_files (line : String) (st : ParseState) :
    (parseStepReset line st).files = st.files := by
  rw [parseStepReset]
  split <;> rfl

theorem parseStepTags_extends (loads : String → Option ItemDict) (dump_file_name : String)
    (line : String) (st : ParseState) :
    FilesExtend st.files (parseStepTags loads dump_file_name line st).files := by
  rw [parseStepTags]
  repeat' split
  all_goals try exact filesExtend_refl _
  all_goals try dsimp only
  all_goals repeat' split
  all_goals try exact filesExtend_refl _
  all_goals exact save_extends _ _ _ _ _

theorem parseStep_extends (loads : String → Option ItemDict) (dump_file_name : String)
    (st : ParseState) (line : String) :
    FilesExtend st.files (parseStep loads dump_file_name st line).files := by
  rw [parseStep, parseStepReset_files]
  have h := parseStepTags_extends loads dump_file_name line (parseStepTitle line st)
  rw [parseStepTitle_files] at h
  exact h

/-- `parse_xml_dump` never deletes or truncates an existing revision file:
whatever an aborted earlier run left in the store survives as a prefix. -/
theorem parse_xml_dump_extends (loads : String → Option ItemDict) (dump_file_name : String) :
    ∀ (lines : List String) (files : FileMap) (redirects_log : List (String × String)),
      FilesExtend files
        (parse_xml_dump loads dump_file_name lines files redirects_log).files := by
  have hfold : ∀ (lines : List String) (st : ParseState),
      FilesExtend st.files (lines.foldl (parseStep loads dump_file_name) st).files := by
    intro lines
    induction lines with
    | nil => intro st; exact filesExtend_refl _
    | cons l rest ih =>
      intro st
      rw [List.foldl_cons]
      exact filesExtend_trans (parseStep_extends loads dump_file_name st l) (ih _)
  intro lines files redirects_log
  exact hfold lines
    { item_id := none, revision_id := none, timestamp := none, format := none,
      item_was_redirected := false, files := files, redirects_log := redirects_log }

/-- Claim C1 (amended): at each checkpointed stage — per-archive parsing,
per-entity extraction, per-shard aggregation — a unit whose completion
marker exists is skipped unchanged, and a unit is marked complete only when
its processing ran to completion (an aborting extraction unit leaves the
marker absent). But no stage deletes partial output left by an aborted run:
the extraction stage rewrites its output file from scratch (mode "wt"
truncates, so its result does not depend on prior content and a rerun never
appends there), while the parsing stage only ever appends to existing
per-entity snapshot files, so rerunning an aborted archive unit appends to a
partially-written output file instead of reprocessing from a clean slate. -/
theorem claim_C1_markers_skip_but_no_partial_cleanup :
    (∀ (loads : String → Option ItemDict) (dump_file_name : String) (lines : List String)
        (st : DumpUnitState), st.processed_marker = true →
      process_dump_file loads dump_file_name lines st = st) ∧
    (∀ (revisions : List RevisionEntry) (st : EntityUnitState),
      st.processed_rev_marker = true →
      write_item_triple_operations_to_file revisions st = (st, true)) ∧
    (∀ (redir_dict : List (String × String)) (filters : Option AggFilters)
        (lines : List (List String)) (st : ShardUnitState),
      st.processed_triple_ops_marker = true →
      collect_subfolder_file redir_dict filters lines st = st) ∧
    (∀ (revisions : List RevisionEntry) (st : EntityUnitState),
      ((write_item_triple_operations_to_file revisions st).1).processed_rev_marker = true →
      (write_item_triple_operations_to_file revisions st).2 = true) ∧
    (∀ (loads : String → Option ItemDict) (dump_file_name : String) (lines : List String)
        (files : FileMap) (redirects_log : List (String × String)),
      FilesExtend files
        (parse_xml_dump loads dump_file_name lines files redirects_log).files) ∧
    (∀ (revisions : List RevisionEntry) (st st2 : EntityUnitState),
      st.processed_rev_marker = false → st2.processed_rev_marker = false →
      ((write_item_triple_operations_to_file revisions st).1).output_file =
        ((write_item_triple_operations_to_file revisions st2).1).output_file) := by
  refine ⟨?_, ?_, ?_, ?_, ?_, ?_⟩
  · intro loads dump lines st h
    rw [process_dump_file, if_pos h]
  · intro revisions st h
    rw [write_item_triple_operations_to_file, if_pos h]
  · intro redir_dict filters lines st h
    rw [collect_subfolder_file, if_pos h]
  · intro revisions st h
    by_cases hm : st.processed_rev_marker = true
    · rw [write_item_triple_operations_to_file, if_pos hm]
    · rw [write_item_triple_operations_to_file, if_neg hm] at h ⊢
      cases hget : get_triple_operations_list revisions with
      | none =>
        rw [hget] at h
        exact absurd h (by decide)
      | some ops => rfl
  · intro loads dump lines files redirects_log
    exact parse_xml_dump_extends loads dump lines files redirects_log
  · intro revisions st st2 h1 h2
    rw [write_item_triple_operations_to_file, if_neg (by rw [h1]; decide),
        write_item_triple_operations_to_file, if_neg (by rw [h2]; decide)]

/-- One page of entity Q5 with a single revision. -/
def dumpLinesOnePage : List String :=
  [ "  <page>" ++ "\n",
    "    <title>Q5</title>" ++ "\n",
    "    <revision>" ++ "\n",
    "      <id>101</id>" ++ "\n",
    "      <timestamp>T1</timestamp>" ++ "\n",
    "      <format>application/json</format>" ++ "\n",
    "      <text bytes=" ++ "\"8\"" ++ ">PAYLOADA</text>" ++ "\n",
    "    </revision>" ++ "\n",
    "  </page>" ++ "\n" ]

/-- The snapshot line `dumpLinesOnePage` stores for Q5. -/
def c1rev : RevisionEntry :=
  { item_id := "Q5", revision := "101", timestamp := "T1", claims := [(5, 1, 7)] }

/-- Claim C1 counterexample: a dangling partial — the entity's snapshot file
already holds the revision from an aborted earlier run, the archive marker
does not exist. The claim says the partial output is deleted before
reprocessing, so the rerun would leave the file exactly as a fresh run does
(second conjunct); instead the rerun appends a duplicate of the revision
(first conjunct). -/
theorem claim_C1_counterexample :
    lookupA (process_dump_file testLoads "dump1" dumpLinesOnePage
        { processed_marker := false, files := [("dump1_Q5.json.bz2", [c1rev])],
          redirects_log := [] }).files "dump1_Q5.json.bz2" = some [c1rev, c1rev] ∧
    lookupA (process_dump_file testLoads "dump1" dumpLinesOnePage
        { processed_marker := false, files := [], redirects_log := [] }).files
        "dump1_Q5.json.bz2" = some [c1rev] := by
  refine ⟨by decide, by decide⟩

/-- Witness for the amended C1, one concrete instantiation per conjunct. -/
theorem claim_C1_witness :
    process_dump_file testLoads "dump1" dumpLinesOnePage
        { processed_marker := true, files := [], redirects_log := [] } =
      { processed_marker := true, files := [], redirects_log := [] } ∧
    write_item_triple_operations_to_file []
        { processed_rev_marker := true, output_file := none } =
      ({ processed_rev_marker := true, output_file := none }, true) ∧
    collect_subfolder_file [] none []
        { processed_triple_ops_marker := true, shared_output := [] } =
      { processed_triple_ops_marker := true, shared_output := [] } ∧
    (write_item_triple_operations_to_file []
        { processed_rev_marker := false, output_file := none }).2 = true ∧
    FilesExtend [] (parse_xml_dump testLoads "dump1" [] [] []).files ∧
    ((write_item_triple_operations_to_file []
        { processed_rev_marker := false, output_file := none }).1).output_file =
      ((write_item_triple_operations_to_file []
        { processed_rev_marker := false, output_file := some [["stale"]] }).1).output_file :=
  ⟨claim_C1_markers_skip_but_no_partial_cleanup.1 testLoads "dump1" dumpLinesOnePage _ rfl,
   claim_C1_markers_skip_but_no_partial_cleanup.2.1 [] _ rfl,
   claim_C1_markers_skip_but_no_partial_cleanup.2.2.1 [] none [] _ rfl,
   claim_C1_markers_skip_but_no_partial_cleanup.2.2.2.1 [] _ (by decide),
   claim_C1_markers_skip_but_no_partial_cleanup.2.2.2.2.1 testLoads "dump1" [] [] [],
   claim_C1_markers_skip_but_no_partial_cleanup.2.2.2.2.2 [] _ _ rfl rfl⟩

def c6x : TOp := { subjc := "1", objc := "2", pred := "3", opty := "+", ts := "9" }

def c6y : TOp := { subjc := "1", objc := "2", pred := "3", opty := "-", ts := "9" }

def c6a : TOp := { subjc := "1", objc := "2", pred := "3", opty := "-", ts := "1" }

def c6b : TOp := { subjc := "4", objc := "5", pred := "6", opty := "+", ts := "2" }

def c6p : TOp := { subjc := "1", objc := "2", pred := "3", opty := "+", ts := "1" }

def c6q : TOp := { subjc := "1", objc := "2", pred := "3", opty := "+", ts := "2" }

def c6c : TOp := { subjc := "7", objc := "8", pred := "9", opty := "+", ts := "3" }

/-- Witness for the amended C6, one concrete instantiation per rule. -/
theorem claim_C6_witness :
    remove_duplicates [c6x, c6y] = remove_duplicates [] ∧
    (∃ t w, remove_duplicates [c6a, c6b] = (c6a :: t, tripleOf c6a :: w)) ∧
    remove_duplicates [c6p, c6q, c6c] = remove_duplicates [c6p, c6c] :=
  ⟨claim_C6_compaction_rules.1 c6x c6y [] (by decide),
   claim_C6_compaction_rules.2.1 c6a c6b [] (by decide) (by decide),
   claim_C6_compaction_rules.2.2 c6p c6q c6c [] (by decide) (by decide) (by decide) (by decide)⟩

end WikidataHistory
